import Mathlib

/-!
Shallow embedding of `src/Base.js` (quickmongo's `Base` class): a small
event-driven wrapper around a mongoose connection.  The class validates a
connection string and options in its constructor, initiates a connection,
re-emits the driver's lifecycle events, and exposes a teardown helper.

JavaScript dynamic values are modelled by a small fragment `JSValue`
sufficient to capture the behaviours the constructor depends on:
truthiness, `typeof`, and availability of a `.startsWith` method.
Event emission and driver calls are modelled as explicit output lists.
-/

/-- Fragment of JavaScript values relevant to the `Base` constructor:
`undefined`, `null`, booleans, numbers (modelled as integers), string
primitives, plain objects, and `String` wrapper objects (which have
`typeof === "object"` yet carry a working `.startsWith`). -/
inductive JSValue where
  | undefined
  | nullv
  | bool (b : Bool)
  | num (n : Int)
  | str (s : String)
  | obj
  | strObj (s : String)
deriving DecidableEq, Repr

/-- JavaScript truthiness: `undefined`, `null`, `false`, `0` and `""` are
falsy; every other value of the fragment is truthy. -/
def truthy : JSValue → Bool
  | .undefined => false
  | .nullv => false
  | .bool b => b
  | .num n => n != 0
  | .str s => s != ""
  | .obj => true
  | .strObj _ => true

/-- JavaScript `typeof` on the fragment (`typeof null === "object"`). -/
def jsTypeof : JSValue → String
  | .undefined => "undefined"
  | .nullv => "object"
  | .bool _ => "boolean"
  | .num _ => "number"
  | .str _ => "string"
  | .obj => "object"
  | .strObj _ => "object"

/-- Semantics of JavaScript `s.startsWith(p)` on string data: `p` is a
prefix of `s`.  Defined over the character lists so it evaluates by
kernel reduction. -/
def jsStartsWith (s p : String) : Bool := p.data.isPrefixOf s.data

/-- Result of evaluating `v.startsWith("mongodb")` on a truthy value:
`some b` when the value has a `startsWith` method (string primitives and
`String` objects), `none` when the property access yields a non-function
and the call raises a `TypeError`. -/
def startsWithMongodb : JSValue → Option Bool
  | .str s => some (jsStartsWith s "mongodb")
  | .strObj s => some (jsStartsWith s "mongodb")
  | _ => none

/-- Exceptions the constructor can raise: the custom error class of
`src/Error.js` (a configuration error), or a native `TypeError` raised by
the JavaScript runtime itself. -/
inductive ThrownError where
  | configError (msg : String)
  | typeError (msg : String)
deriving DecidableEq, Repr

/-- An emitted `EventEmitter` event: its name and its optional single
payload argument. -/
structure Event where
  name : String
  payload : Option JSValue
deriving DecidableEq, Repr

/-- Calls made to the external mongoose driver. -/
inductive DriverCall where
  | connect (url : Option String) (useNewUrlParser useUnifiedTopology : Bool)
  | disconnect
deriving DecidableEq, Repr

/-- Decidable equality for `Except`, used to evaluate the embedded
constructor at concrete inputs. -/
instance {ε α : Type} [DecidableEq ε] [DecidableEq α] : DecidableEq (Except ε α)
  | .error a, .error b =>
    if h : a = b then isTrue (by rw [h])
    else isFalse (by intro hc; cases hc; exact h rfl)
  | .error _, .ok _ => isFalse (by intro h; cases h)
  | .ok _, .error _ => isFalse (by intro h; cases h)
  | .ok a, .ok b =>
    if h : a = b then isTrue (by rw [h])
    else isFalse (by intro hc; cases hc; exact h rfl)

/-- The mutable fields of a `Base` instance: `this.dbURL` (`none` models
`null`), `this.options`, and `this.readyAt` (`none` models `undefined`;
the `Date` is modelled as a `Nat` timestamp). -/
structure BaseState where
  dbURL : Option String
  options : JSValue
  readyAt : Option Nat
deriving DecidableEq, Repr

/-- Embedding of `Base.prototype._create`: emits an event whose *name* is
the string `"Creating database connection..."` (the source passes that
string as the event name of `this.emit`, with no payload), then calls
`mongoose.connect(this.dbURL, { useNewUrlParser: true,
useUnifiedTopology: true })`. -/
def base_create (dbURL : Option String) : List Event × List DriverCall :=
  ([{ name := "Creating database connection...", payload := none }],
   [DriverCall.connect dbURL true true])

/-- Embedding of the `Base` constructor.  Mirrors the source order:
line 17 checks `!mongodbURL || !mongodbURL.startsWith("mongodb")`
(short-circuit: a falsy value throws the configuration error before any
method call, a truthy value without a `startsWith` method raises a
`TypeError`); line 18 checks `typeof mongodbURL !== "string"`; line 19
checks `connectionOptions && typeof connectionOptions !== "object"`.
On success it stores `dbURL` and `options`, and runs `_create`. -/
def constructWith (mongodbURL connectionOptions : JSValue) :
    Except ThrownError (BaseState × List Event × List DriverCall) :=
  if !truthy mongodbURL then
    .error (.configError "No mongodb url was provided!")
  else
    match startsWithMongodb mongodbURL with
    | none => .error (.typeError "mongodbURL.startsWith is not a function")
    | some b =>
      if !b then
        .error (.configError "No mongodb url was provided!")
      else
        match mongodbURL with
        | .str url =>
          if truthy connectionOptions && (jsTypeof connectionOptions != "object") then
            .error (.configError
              ("Expected Object for connectionOptions, received "
                ++ jsTypeof connectionOptions))
          else
            let st : BaseState :=
              { dbURL := some url, options := connectionOptions, readyAt := none }
            let created := base_create st.dbURL
            .ok (st, created.1, created.2)
        | v =>
          .error (.configError
            ("Expected a string for mongodbURL, received " ++ jsTypeof v))

/-- Embedding of the `mongoose.connection.on("error", ...)` handler: it
re-emits `"error"` with the received payload and touches no field. -/
def errorHandler (s : BaseState) (e : JSValue) : BaseState × List Event :=
  (s, [{ name := "error", payload := some e }])

/-- Embedding of the `mongoose.connection.on("open", ...)` handler: it
sets `this.readyAt = new Date()` (the current time `now`) and then emits
`"ready"` with no payload. -/
def openHandler (s : BaseState) (now : Nat) : BaseState × List Event :=
  ({ s with readyAt := some now }, [{ name := "ready", payload := none }])

/-- Delivery of a sequence of driver `"error"` events, threading the
state through `errorHandler` and concatenating the emitted events. -/
def processErrors (s : BaseState) (es : List JSValue) : BaseState × List Event :=
  match es with
  | [] => (s, [])
  | e :: rest =>
    let step := errorHandler s e
    let tail := processErrors step.1 rest
    (tail.1, step.2 ++ tail.2)

/-- Embedding of `Base.prototype._destroyDatabase`: calls
`mongoose.disconnect()` (fire-and-forget), sets `this.readyAt =
undefined` and `this.dbURL = null`, and emits one `"debug"` event with
the fixed message `"Database disconnected!"`. -/
def destroyDatabase (s : BaseState) : BaseState × List Event × List DriverCall :=
  ({ s with readyAt := none, dbURL := none },
   [{ name := "debug", payload := some (.str "Database disconnected!") }],
   [DriverCall.disconnect])

/-! ## Helper lemmas -/

theorem bne_empty_of_ne (s : String) (h : s ≠ "") : (s != "") = true := by
  simpa using h

theorem truthy_str (s : String) : truthy (.str s) = (s != "") := rfl

theorem processErrors_eq (s : BaseState) (es : List JSValue) :
    processErrors s es
      = (s, es.map (fun e => { name := "error", payload := some e })) := by
  induction es generalizing s with
  | nil => rfl
  | cons e rest ih => simp [processErrors, errorHandler, ih]

/-! ## Claims -/

/-- C1: the claim says every non-string `mongodbURL` makes construction
fail with the custom `ConfigurationError`.  On the truthy non-string `5`
the source instead raises a native `TypeError` at line 17
(`mongodbURL.startsWith` is not a function) before the `typeof` check of
line 18 can fire, so construction fails but not with the custom error
class. -/
theorem c1_number_url_raises_type_error :
    constructWith (.num 5) .obj
      = .error (.typeError "mongodbURL.startsWith is not a function")
    ∧ ∀ msg, constructWith (.num 5) .obj ≠ .error (.configError msg) := by
  refine ⟨by decide, ?_⟩
  intro msg h
  rw [show constructWith (.num 5) .obj
        = .error (.typeError "mongodbURL.startsWith is not a function")
      from by decide] at h
  simp at h

/-- C2 counterexample: the claim says every non-object `options` value,
including falsy ones such as `0`, makes construction fail with
`ConfigurationError`.  With `options = 0` (a number, not an object) the
guard `connectionOptions && typeof connectionOptions !== "object"`
short-circuits on the falsy value and construction succeeds, storing
`0` as `this.options`. -/
theorem c2_counterexample_zero_options_accepted :
    constructWith (.str "mongodb://localhost/test") (.num 0)
      = .ok ({ dbURL := some "mongodb://localhost/test",
               options := .num 0, readyAt := none },
             [{ name := "Creating database connection...", payload := none }],
             [DriverCall.connect (some "mongodb://localhost/test") true true]) := by
  decide

/-- C2 amended: for every *truthy* non-object `options` value,
construction with a valid url fails with a `ConfigurationError`; falsy
non-object values are accepted. -/
theorem c2_truthy_nonobject_options_config_error
    (s : String) (opts : JSValue)
    (hs : jsStartsWith s "mongodb" = true)
    (ht : truthy opts = true)
    (hto : jsTypeof opts ≠ "object") :
    constructWith (.str s) opts
      = .error (.configError
          ("Expected Object for connectionOptions, received " ++ jsTypeof opts)) := by
  have hne : (s != "") = true := by
    refine bne_empty_of_ne s ?_
    intro hcon
    subst hcon
    exact absurd hs (by decide)
  have hbne : (jsTypeof opts != "object") = true := by simpa using hto
  simp [constructWith, startsWithMongodb, truthy_str, hs, hne, ht, hbne]

/-- C2 witness for the amended claim: `options = 5` is truthy and not an
object, and construction with a valid url throws the configuration
error. -/
theorem c2_truthy_nonobject_options_config_error_witness :
    constructWith (.str "mongodb://localhost/test") (.num 5)
      = .error (.configError
          ("Expected Object for connectionOptions, received "
            ++ jsTypeof (.num 5))) :=
  c2_truthy_nonobject_options_config_error "mongodb://localhost/test" (.num 5)
    (by decide) (by decide) (by decide)

/-- C3: the claim says a `"debug"` event is emitted both on teardown and
at connection-attempt start.  The source's `_create` instead calls
`this.emit("Creating database connection...")`, i.e. it emits an event
*named* by the diagnostic string with no payload, and emits no event
named `"debug"`; only `_destroyDatabase` emits a `"debug"` event. -/
theorem c3_create_emits_no_debug_event :
    (base_create (some "mongodb://localhost/test")).1
      = [{ name := "Creating database connection...", payload := none }]
    ∧ ((base_create (some "mongodb://localhost/test")).1.all
        (fun ev => ev.name != "debug")) = true
    ∧ (destroyDatabase { dbURL := some "mongodb://localhost/test",
                         options := .obj, readyAt := some 7 }).2.1
      = [{ name := "debug", payload := some (.str "Database disconnected!") }] := by
  exact ⟨rfl, by decide, rfl⟩

/-- C4: every string `mongodbURL` that is empty or does not start with
`"mongodb"` makes construction fail synchronously with the
`ConfigurationError` of line 17. -/
theorem c4_invalid_url_string_config_error
    (s : String) (opts : JSValue)
    (h : s = "" ∨ jsStartsWith s "mongodb" = false) :
    constructWith (.str s) opts
      = .error (.configError "No mongodb url was provided!") := by
  by_cases hs : s = ""
  · subst hs; rfl
  · have hsw : jsStartsWith s "mongodb" = false := by
      rcases h with h | h
      · exact absurd h hs
      · exact h
    have hne : (s != "") = true := bne_empty_of_ne s hs
    simp [constructWith, truthy, startsWithMongodb, hne, hsw]

/-- C4 witness: constructing with `"redis://localhost"` throws the
configuration error. -/
theorem c4_invalid_url_string_config_error_witness :
    constructWith (.str "redis://localhost") .obj
      = .error (.configError "No mongodb url was provided!") :=
  c4_invalid_url_string_config_error "redis://localhost" .obj (Or.inr (by decide))

/-- C5: after `_destroyDatabase` returns, in every state, `readyAt` is
`undefined` and `dbURL` is `null`; exactly one `"debug"` event with the
fixed message was emitted during the call, and no `"error"` event. -/
theorem c5_destroy_clears_state_single_debug (s : BaseState) :
    (destroyDatabase s).1.readyAt = none
    ∧ (destroyDatabase s).1.dbURL = none
    ∧ (destroyDatabase s).2.1
        = [{ name := "debug", payload := some (.str "Database disconnected!") }]
    ∧ ((destroyDatabase s).2.1.all (fun ev => ev.name != "error")) = true := by
  exact ⟨rfl, rfl, rfl, rfl⟩

/-- C6: for a manager constructed with a valid connection string, the
driver's `"open"` handler records the current time as `readyAt` — a
value no earlier than construction time under a monotone clock — and
then emits exactly one `"ready"` event per open event. -/
theorem c6_open_sets_ready_at_and_emits_ready_once
    (url : String) (opts : JSValue) (st : BaseState) (evs : List Event)
    (calls : List DriverCall) (tc t : Nat)
    (_h_constructed : constructWith (.str url) opts = .ok (st, evs, calls))
    (hmono : tc ≤ t) :
    (openHandler st t).1.readyAt = some t
    ∧ tc ≤ t
    ∧ (openHandler st t).2 = [{ name := "ready", payload := none }] :=
  ⟨rfl, hmono, rfl⟩

/-- C6 witness: a concrete construction with `"mongodb://localhost/test"`
and an open event delivered at time 5 with construction time 0. -/
theorem c6_open_sets_ready_at_and_emits_ready_once_witness :
    (openHandler { dbURL := some "mongodb://localhost/test",
                   options := JSValue.obj, readyAt := none } 5).1.readyAt = some 5
    ∧ (0 : Nat) ≤ 5
    ∧ (openHandler { dbURL := some "mongodb://localhost/test",
                     options := JSValue.obj, readyAt := none } 5).2
        = [{ name := "ready", payload := none }] :=
  c6_open_sets_ready_at_and_emits_ready_once "mongodb://localhost/test" JSValue.obj
    { dbURL := some "mongodb://localhost/test", options := JSValue.obj, readyAt := none }
    [{ name := "Creating database connection...", payload := none }]
    [DriverCall.connect (some "mongodb://localhost/test") true true]
    0 5 (by decide) (by decide)

/-- C7: for every state and every sequence of `N` driver `"error"`
events, the manager re-emits `"error"` exactly `N` times with the
identical payloads in order, and the state — in particular `readyAt` —
is unmodified. -/
theorem c7_errors_reemitted_with_payloads (s : BaseState) (es : List JSValue) :
    (processErrors s es).1.readyAt = s.readyAt
    ∧ (processErrors s es).1 = s
    ∧ (processErrors s es).2
        = es.map (fun e => { name := "error", payload := some e })
    ∧ (processErrors s es).2.length = es.length := by
  rw [processErrors_eq]
  exact ⟨rfl, rfl, rfl, by simp⟩

/-- C8: the claim says configuration errors are the only exceptions ever
thrown.  Constructing with the truthy non-string `true` instead raises a
native `TypeError` at line 17, so the constructor can throw an exception
that is not a `ConfigurationError`. -/
theorem c8_constructor_raises_non_config_error :
    constructWith (.bool true) .obj
      = .error (.typeError "mongodbURL.startsWith is not a function")
    ∧ ∀ msg, constructWith (.bool true) .obj ≠ .error (.configError msg) := by
  refine ⟨by decide, ?_⟩
  intro msg h
  rw [show constructWith (.bool true) .obj
        = .error (.typeError "mongodbURL.startsWith is not a function")
      from by decide] at h
  simp at h

/-- C9: teardown is idempotent on the manager state: destroying twice
leaves the same state as destroying once, and each call emits its own
single `"debug"` event. -/
theorem c9_destroy_idempotent (s : BaseState) :
    (destroyDatabase (destroyDatabase s).1).1 = (destroyDatabase s).1
    ∧ (destroyDatabase s).2.1
        = [{ name := "debug", payload := some (.str "Database disconnected!") }]
    ∧ (destroyDatabase (destroyDatabase s).1).2.1
        = [{ name := "debug", payload := some (.str "Database disconnected!") }] :=
  ⟨rfl, rfl, rfl⟩

/-- C10: teardown modifies only `readyAt` and `dbURL`: the `options`
field — the only other field of the state — is unchanged by
`_destroyDatabase` in every state. -/
theorem c10_destroy_preserves_options (s : BaseState) :
    (destroyDatabase s).1.options = s.options :=
  rfl
